import Mathlib

/-!
Verification development for the `habu` hypermedia client library.

The development shallowly embeds the two source modules:

* `habu/uri_parsing.py` — URI-template value extraction and operator expanders
  (`unpack`, `text_limit`, `value_extraction`, `key_value_extraction`,
  `string_expansion`, `fragment_expansion`);
* `habu/__init__.py` — the HAL document model (`Link`, `CURIE`, `LinkContainer`,
  `ResourceContainer`, `DictionaryWrapper`, `Resource`) and the module-level
  configuration (`use_missing_embedded_fallback`).

Python values are modelled by the `JSON` family below.  Exceptions are modelled
by `Except PyError`; Python dictionaries by ordered association structures
(`JObj`), matching CPython insertion-order semantics.  Warnings emitted through
`warnings.warn` are non-fatal diagnostics and are not modelled.
-/

/- Python values as they flow through the library: strings, integers, booleans,
`None`, lists and (string-keyed) dictionaries.  The family is mutual so that all
recursions over it are structural. -/
mutual
inductive JSON where
  | str : String → JSON
  | int : Int → JSON
  | bool : Bool → JSON
  | null : JSON
  | arr : JArr → JSON
  | obj : JObj → JSON
deriving DecidableEq
inductive JArr where
  | nil : JArr
  | cons : JSON → JArr → JArr
deriving DecidableEq
inductive JObj where
  | nil : JObj
  | cons : String → JSON → JObj → JObj
deriving DecidableEq
end

def JArr.ofList : List JSON → JArr
  | [] => .nil
  | x :: rest => .cons x (JArr.ofList rest)

def JArr.toList : JArr → List JSON
  | .nil => []
  | .cons x rest => x :: rest.toList

/-- Lookup of a key in a Python dict (dict keys are unique, so first match). -/
def JObj.lookup : JObj → String → Option JSON
  | .nil, _ => none
  | .cons k v rest, key => if k == key then some v else rest.lookup key

/-- Python `d[key] = value`: overwrite in place if the key exists, else append
(CPython dicts preserve insertion order). -/
def JObj.set : JObj → String → JSON → JObj
  | .nil, k, v => .cons k v .nil
  | .cons k0 v0 rest, k, v =>
    if k0 == k then .cons k0 v rest else .cons k0 v0 (rest.set k v)

/-- Python `d.pop(key, None)`: drop the entry for `key` (no-op when absent). -/
def JObj.removeKey : JObj → String → JObj
  | .nil, _ => .nil
  | .cons k v rest, key =>
    if k == key then rest.removeKey key else .cons k v (rest.removeKey key)

def JObj.keys : JObj → List String
  | .nil => []
  | .cons k _ rest => k :: rest.keys

/-- Python truthiness of a value (`if dict_:` and similar tests). -/
def JSON.truthy : JSON → Bool
  | .str s => s ≠ ""
  | .int n => n ≠ 0
  | .bool b => b
  | .null => false
  | .arr .nil => false
  | .arr (.cons _ _) => true
  | .obj .nil => false
  | .obj (.cons _ _ _) => true

def JObj.size : JObj → Nat
  | .nil => 0
  | .cons _ _ rest => rest.size + 1

/- Python `==` on values: numeric cross-equality between `bool` and `int`
(`True == 1`), element-wise list equality, key/value dict equality (same size
and every key of the left dict mapped to an equal value in the right one). -/
mutual
def pyEq : JSON → JSON → Bool
  | .str a, .str b => a == b
  | .int a, .int b => a == b
  | .bool a, .bool b => a == b
  | .bool a, .int b => ((if a then (1 : Int) else 0) == b)
  | .int a, .bool b => (a == (if b then (1 : Int) else 0))
  | .null, .null => true
  | .arr a, .arr b => pyEqArr a b
  | .obj a, .obj b => (JObj.size a == JObj.size b) && pyEqObjEntries a b
  | _, _ => false
def pyEqArr : JArr → JArr → Bool
  | .nil, .nil => true
  | .cons x xs, .cons y ys => pyEq x y && pyEqArr xs ys
  | _, _ => false
def pyEqObjEntries : JObj → JObj → Bool
  | .nil, _ => true
  | .cons k v rest, b =>
    (match b.lookup k with
     | some w => pyEq v w
     | none => false) && pyEqObjEntries rest b
end

/-- One ASCII single-quote character, used by Python `repr` of strings. -/
def squote : String := String.singleton (Char.ofNat 39)

/- Python `repr` of a value (as used when formatting containers with `%s`).
String escaping inside `repr` is not modelled. -/
mutual
def pyRepr : JSON → String
  | .str s => squote ++ s ++ squote
  | .int n => toString n
  | .bool b => if b then "True" else "False"
  | .null => "None"
  | .arr a => "[" ++ pyReprArr a ++ "]"
  | .obj o => "\x7b" ++ pyReprObj o ++ "\x7d"
def pyReprArr : JArr → String
  | .nil => ""
  | .cons x .nil => pyRepr x
  | .cons x rest => pyRepr x ++ ", " ++ pyReprArr rest
def pyReprObj : JObj → String
  | .nil => ""
  | .cons k v .nil => squote ++ k ++ squote ++ ": " ++ pyRepr v
  | .cons k v rest => squote ++ k ++ squote ++ ": " ++ pyRepr v ++ ", " ++ pyReprObj rest
end

/-- Python `"%s" % value` formatting: strings verbatim, containers via `repr`. -/
def pyStr : JSON → String
  | .str s => s
  | v => pyRepr v

/-- The Python exception classes raised by the embedded code. -/
inductive PyError where
  | typeError : PyError
  | valueError : PyError
  | indexError : PyError
  | attributeError : String → PyError
  | nameError : String → PyError
  | runtimeError : PyError
deriving DecidableEq

/-!
Embedding of `habu/uri_parsing.py`.

All string helpers below are written as structural recursions over the
character list of the string so that concrete computations reduce by `rfl`
(the corresponding core-library functions use well-founded recursion).
-/

def splitCharList (sep : Char) : List Char → List (List Char)
  | [] => [[]]
  | c :: rest =>
    let r := splitCharList sep rest
    if c == sep then [] :: r
    else
      match r with
      | h :: t => (c :: h) :: t
      | [] => [[c]]

/-- Python `s.split(sep)` for a one-character separator (the source only splits
on `","` and `":"`).  Always yields at least one piece. -/
def pySplit (sep : Char) (s : String) : List String :=
  (splitCharList sep s.data).map String.mk

/-- Python `s[-1] == c` for a non-empty string: test of the last character. -/
def lastCharIs (c : Char) (s : String) : Bool :=
  match s.data.getLast? with
  | some c0 => c0 == c
  | none => false

/-- Python `sep.join(strings)`. -/
def joinWithSep (sep : String) : List String → String
  | [] => ""
  | [x] => x
  | x :: rest => x ++ sep ++ joinWithSep sep rest

def parseDigitsAux : List Char → Nat → Option Nat
  | [], acc => some acc
  | c :: rest, acc =>
      if c.isDigit then parseDigitsAux rest (acc * 10 + (c.toNat - 48)) else none

def parseDigits : List Char → Option Nat
  | [] => none
  | cs => parseDigitsAux cs 0

/-- Python `int(s)` as used for the `:N` limit modifier; raises `ValueError` on
a non-numeric string. -/
def pyInt (s : String) : Except PyError Int :=
  match s.data with
  | '-' :: rest =>
      match parseDigits rest with
      | some n => .ok (-(n : Int))
      | none => .error .valueError
  | '+' :: rest =>
      match parseDigits rest with
      | some n => .ok (n : Int)
      | none => .error .valueError
  | cs =>
      match parseDigits cs with
      | some n => .ok (n : Int)
      | none => .error .valueError

def collectStrings : List JSON → Except PyError (List String)
  | [] => .ok []
  | .str s :: rest => do
      let r ← collectStrings rest
      .ok (s :: r)
  | _ :: _ => .error .typeError

/-- Python `sep.join(list)`: every element must be a `str`, else `TypeError`. -/
def pyJoinStrings (sep : String) (l : List JSON) : Except PyError String := do
  let parts ← collectStrings l
  .ok (joinWithSep sep parts)

def unpackObjExplode : JObj → List JSON
  | .nil => []
  | .cons k v rest => .str (k ++ "=" ++ pyStr v) :: unpackObjExplode rest

def unpackObjFlat : JObj → List JSON
  | .nil => []
  | .cons k v rest => .str k :: v :: unpackObjFlat rest

/-- `uri_parsing.unpack(value, explode)`: a list explodes to its elements or is
comma-joined into one string; a dict explodes to `"key=value"` strings or is
flattened to an alternating key, value list; anything else is returned as the
single value. -/
def unpack (value : JSON) (explode : Bool) : Except PyError (List JSON) :=
  match value with
  | .arr a =>
      if explode then .ok a.toList
      else do
        let s ← pyJoinStrings "," a.toList
        .ok [.str s]
  | .obj o => if explode then .ok (unpackObjExplode o) else .ok (unpackObjFlat o)
  | v => .ok [v]

/-- `uri_parsing.text_limit(limit, value)`.  The Python test is
`if limit and limit > 0`, so ONLY a strictly positive limit truncates; zero and
negative limits return the value unchanged.  A non-string value raises
`TypeError`. -/
def text_limit (limit : Int) (value : JSON) : Except PyError JSON :=
  match value with
  | .str s => if limit ≠ 0 ∧ limit > 0 then .ok (.str (s.take limit.toNat)) else .ok (.str s)
  | _ => .error .typeError

/-- Formatting of one resolved value: `key_value_extraction` emits
`"%s=%s" % (placeholder, item)` while `value_extraction` keeps the raw item. -/
def fmtVal (kv : Bool) (nameStr : String) (v : JSON) : JSON :=
  if kv then .str (nameStr ++ "=" ++ pyStr v) else v

/- The shared placeholder loop of `value_extraction` / `key_value_extraction`
(`kv` selects the formatting).  In the source, `remaining_placeholders` is the
SAME list object as `placeholders`, and `remaining_placeholders.remove(original)`
mutates the list being iterated; CPython iterates `for placeholder in
placeholders` by an internal index.  The loop is therefore modelled on the live
list `L` plus the iteration index `i`; a resolved placeholder is erased from `L`
(first occurrence, as `list.remove`) and the index still advances, which SKIPS
the element that slid into position `i`.  `fuel` is an upper bound on the number
of iterations: the index grows by one each pass and the list never grows, so the
initial list length is always sufficient, and when fuel runs out the index
already equals the initial length, where the loop exits with the same result. -/
def extractLoop (kv : Bool) : Nat → List String → Nat → List JSON → List JSON →
    List (String × JSON) → Except PyError (List JSON × List JSON × List (String × JSON))
  | 0, _, _, values, args, kwargs => .ok (values, args, kwargs)
  | fuel + 1, L, i, values, args, kwargs =>
    match L.get? i with
    | none => .ok (values, args, kwargs)
    | some ph =>
      -- `placeholder[-1]` raises IndexError on the empty string
      if ph == "" then .error .indexError
      else
      let hasExplode := lastCharIs '*' ph
      let hasLimiter := ph.data.contains ':'
      if hasExplode && hasLimiter then .error .valueError
      else
      let nameStr := if hasExplode then String.mk ph.data.dropLast else ph
      if hasLimiter then
        -- `parts = placeholder.split(":")`; `has_limiter` guarantees two parts
        match pySplit ':' nameStr with
        | p0 :: p1 :: _ => do
          let amount ← pyInt p1
          match args with
          | a :: _ =>
            if a == JSON.null then
              -- `args[0] is None`: fall through to the keyword branch
              match kwargs.lookup p0 with
              | some w =>
                  if w == JSON.null then extractLoop kv fuel L (i + 1) values args kwargs
                  else do
                    let limited ← text_limit amount w
                    extractLoop kv fuel (L.erase ph) (i + 1)
                      (values ++ [fmtVal kv p0 limited]) args
                      (kwargs.filter (fun p => !(p.1 == p0)))
              | none => extractLoop kv fuel L (i + 1) values args kwargs
            else do
              let limited ← text_limit amount a
              extractLoop kv fuel (L.erase ph) (i + 1)
                (values ++ [fmtVal kv p0 limited])
                (args.filter (fun x => !(pyEq x a))) kwargs
          | [] =>
            match kwargs.lookup p0 with
            | some w =>
                if w == JSON.null then extractLoop kv fuel L (i + 1) values args kwargs
                else do
                  let limited ← text_limit amount w
                  extractLoop kv fuel (L.erase ph) (i + 1)
                    (values ++ [fmtVal kv p0 limited]) args
                    (kwargs.filter (fun p => !(p.1 == p0)))
            | none => extractLoop kv fuel L (i + 1) values args kwargs
        | _ => .error .indexError
      else
        match args with
        | a :: _ =>
          if a == JSON.null then
            match kwargs.lookup nameStr with
            | some w =>
                if w == JSON.null then extractLoop kv fuel L (i + 1) values args kwargs
                else do
                  let items ← unpack w hasExplode
                  extractLoop kv fuel (L.erase ph) (i + 1)
                    (values ++ items.map (fmtVal kv nameStr)) args
                    (kwargs.filter (fun p => !(p.1 == nameStr)))
            | none => extractLoop kv fuel L (i + 1) values args kwargs
          else do
            let items ← unpack a hasExplode
            -- `args = tuple(a for a in args if a != args[0])` removes EVERY
            -- argument equal to the consumed head, not just the head itself
            extractLoop kv fuel (L.erase ph) (i + 1)
              (values ++ items.map (fmtVal kv nameStr))
              (args.filter (fun x => !(pyEq x a))) kwargs
        | [] =>
          match kwargs.lookup nameStr with
          | some w =>
              if w == JSON.null then extractLoop kv fuel L (i + 1) values args kwargs
              else do
                let items ← unpack w hasExplode
                extractLoop kv fuel (L.erase ph) (i + 1)
                  (values ++ items.map (fmtVal kv nameStr)) args
                  (kwargs.filter (fun p => !(p.1 == nameStr)))
          | none => extractLoop kv fuel L (i + 1) values args kwargs

/-- `uri_parsing.value_extraction(template, *args, **kwargs)`.  The first
result component is the Python return value: normally the list of resolved
values; the `("", args, kwargs)` early return is dead code because
`template.split(",")` always yields at least one piece, making the
`ValueError` unconditional when no arguments are supplied. -/
def value_extraction (template : String) (args : List JSON)
    (kwargs : List (String × JSON)) :
    Except PyError (JSON × List JSON × List (String × JSON)) :=
  let placeholders := pySplit ',' template
  if args.isEmpty && kwargs.isEmpty then
    if placeholders.isEmpty then .ok (.str "", args, kwargs)
    else .error .valueError
  else do
    let (values, args2, kwargs2) ←
      extractLoop false placeholders.length placeholders 0 [] args kwargs
    -- the trailing `warnings.warn` about leftover placeholders is non-fatal
    .ok (.arr (JArr.ofList values), args2, kwargs2)

/-- `uri_parsing.key_value_extraction(template, *args, **kwargs)`.  Unlike
`value_extraction`, the no-arguments case returns `("", args, kwargs)` without
raising. -/
def key_value_extraction (template : String) (args : List JSON)
    (kwargs : List (String × JSON)) :
    Except PyError (JSON × List JSON × List (String × JSON)) :=
  if args.isEmpty && kwargs.isEmpty then .ok (.str "", args, kwargs)
  else
    let placeholders := pySplit ',' template
    do
      let (values, args2, kwargs2) ←
        extractLoop true placeholders.length placeholders 0 [] args kwargs
      .ok (.arr (JArr.ofList values), args2, kwargs2)

/-- Python `sep.join(v)` on the first component of an extraction result: a list
joins its (string) elements; a string is itself iterable, so joining a string
interleaves `sep` between its characters. -/
def pyJoin (sep : String) : JSON → Except PyError String
  | .arr a => pyJoinStrings sep a.toList
  | .str s => .ok (joinWithSep sep (s.data.map Char.toString))
  | _ => .error .typeError

/-- `uri_parsing.string_expansion`: comma-join the extracted values. -/
def string_expansion (template : String) (args : List JSON)
    (kwargs : List (String × JSON)) :
    Except PyError (String × List JSON × List (String × JSON)) := do
  let (values, args2, kwargs2) ← value_extraction template args kwargs
  let s ← pyJoin "," values
  .ok (s, args2, kwargs2)

/-- `uri_parsing.fragment_expansion`: the source computes
`"#%s" % ",".join(value)` where `value` is the STRING produced by
`string_expansion`, so the join runs over the characters of that string. -/
def fragment_expansion (template : String) (args : List JSON)
    (kwargs : List (String × JSON)) :
    Except PyError (String × List JSON × List (String × JSON)) := do
  let (value, args2, kwargs2) ← string_expansion template args kwargs
  .ok ("#" ++ joinWithSep "," (value.data.map Char.toString), args2, kwargs2)

/-!
Embedding of `habu/__init__.py`.

`DictionaryWrapper` is modelled by its key-value content (a `JObj`): wrapping a
dict into a `DictionaryWrapper` (`_def_wrapper_recursion`) changes only the
Python type of nested mappings, not any observable key or value, so it is the
identity on this representation.
-/

/-- The attribute record of `habu.Link` (and of `habu.CURIE`, which adds no
attributes).  Attribute values are arbitrary Python values because
`Link.unserialize` copies whatever the document supplies; the defaults are the
ones set in `Link.__init__`.  The `_documentation` slot holds either `None` or
a Link object encoded as its attribute dict. -/
structure Link where
  documentation : JSON := .null
  rel : JSON := .str ""
  deprecation : JSON := .null
  href : JSON := .str ""
  hreflang : JSON := .str "en-US"
  name : JSON := .str ""
  profile : JSON := .str ""
  templated : JSON := .bool false
  title : JSON := .str ""
  type : JSON := .str "application/hal+json"
deriving DecidableEq

def Link.init : Link := {}

/-- Assignment `self.__dict__[key] = val` for a recognized attribute name;
unrecognized names only produce a warning and are dropped. -/
def Link.setAttr (l : Link) (k : String) (v : JSON) : Link :=
  if k == "_documentation" then { l with documentation := v }
  else if k == "_rel" then { l with rel := v }
  else if k == "deprecation" then { l with deprecation := v }
  else if k == "href" then { l with href := v }
  else if k == "hreflang" then { l with hreflang := v }
  else if k == "name" then { l with name := v }
  else if k == "profile" then { l with profile := v }
  else if k == "templated" then { l with templated := v }
  else if k == "title" then { l with title := v }
  else if k == "type" then { l with type := v }
  else l

def Link.unserializeFold : Link → JObj → Link
  | l, .nil => l
  | l, .cons k v rest => Link.unserializeFold (l.setAttr k v) rest

/-- `Link.unserialize(dict_)`: requires a dict, copies every recognized
attribute.  A missing `href`, unknown attributes and a truthy `deprecation`
only emit warnings. -/
def Link.unserialize (l : Link) (d : JSON) : Except PyError Link :=
  match d with
  | .obj o => .ok (Link.unserializeFold l o)
  | _ => .error .typeError

/-- The `__dict__` of a Link, in the attribute insertion order of
`Link.__init__` (used by `CURIE.resolve` and to store a documentation Link). -/
def Link.toDict (l : Link) : JObj :=
  .cons "_documentation" l.documentation (.cons "_rel" l.rel
    (.cons "deprecation" l.deprecation (.cons "href" l.href
    (.cons "hreflang" l.hreflang (.cons "name" l.name
    (.cons "profile" l.profile (.cons "templated" l.templated
    (.cons "title" l.title (.cons "type" l.type .nil)))))))))

/-- `CURIE.resolve(link)`: copy the CURIE attributes into a fresh Link,
substitute `\x7brel\x7d` in its href with the target relation, clear
`templated` and set `name` to `"curiename:rel"`.  A non-string href has no
`.replace` method (`AttributeError`); a non-string target relation is an
invalid `.replace` argument (`TypeError`). -/
def CURIE.resolve (curie : Link) (target : Link) : Except PyError Link :=
  let l := Link.unserializeFold Link.init curie.toDict
  match l.href, target.rel with
  | .str h, .str r =>
      .ok { l with href := .str (h.replace "\x7brel\x7d" r),
                   templated := .bool false,
                   name := .str (pyStr curie.name ++ ":" ++ r) }
  | .str _, _ => .error .typeError
  | _, _ => .error (.attributeError "replace")

/-- Update-or-append into the `_links` mapping (relation name → Link). -/
def setLink : List (String × Link) → String → Link → List (String × Link)
  | [], k, v => [(k, v)]
  | (k0, v0) :: rest, k, v =>
    if k0 == k then (k0, v) :: rest else (k0, v0) :: setLink rest k v

/- The `_curies` mapping is keyed by the CURIE `name` attribute, which is
whatever value the document supplied, so its keys are Python values compared
with `==`. -/
def lookupCurie : List (JSON × Link) → JSON → Option Link
  | [], _ => none
  | (k0, v0) :: rest, k => if pyEq k0 k then some v0 else lookupCurie rest k

def setCurie : List (JSON × Link) → JSON → Link → List (JSON × Link)
  | [], k, v => [(k, v)]
  | (k0, v0) :: rest, k, v =>
    if pyEq k0 k then (k0, v) :: rest else (k0, v0) :: setCurie rest k v

/-- `habu.LinkContainer`: the `_links` and `_curies` dictionaries. -/
structure LinkContainer where
  links : List (String × Link) := []
  curies : List (JSON × Link) := []
deriving DecidableEq

def LinkContainer.init : LinkContainer := {}

/-- `LinkContainer._extract_from_dict(name, obj)`: unserialize one singular
link object under a relation name (possibly curie-prefixed). -/
def LinkContainer.extractFromDict (lc : LinkContainer) (name : String) (o : JObj) :
    Except PyError LinkContainer :=
  match o with
  | .nil => .ok lc
  | _ =>
    if name == "curies" then .error .typeError
    else do
      let (curieName, relName) ←
        if name.data.contains ':' then
          match pySplit ':' name with
          | [c, r] => (.ok (c, r) : Except PyError (String × String))
          | _ => .error .valueError
        else .ok ("", name)
      let l := Link.unserializeFold { Link.init with rel := .str relName } o
      let l2 ←
        if curieName ≠ "" then
          match lookupCurie lc.curies (.str curieName) with
          | some c => do
              let d ← CURIE.resolve c l
              (.ok { l with documentation := .obj d.toDict } : Except PyError Link)
          | none => .ok l
        else .ok l
      .ok { lc with links := setLink lc.links relName l2 }

/-- The `curies` branch of `LinkContainer._unserialize_list`: every entry must
be a dict with both `name` and `href`; a missing `\x7brel\x7d` in the href only
warns (and a non-string, non-container href makes that membership test raise
`TypeError`). -/
def LinkContainer.unserializeCuries (lc : LinkContainer) : JArr → Except PyError LinkContainer
  | .nil => .ok lc
  | .cons d rest =>
    match d with
    | .obj o =>
        if (o.lookup "name").isNone then .error .valueError
        else if (o.lookup "href").isNone then .error .valueError
        else
          match o.lookup "href" with
          | some (.int _) | some (.bool _) | some .null => .error .typeError
          | _ =>
            let c := Link.unserializeFold { Link.init with rel := .str "curies" } o
            LinkContainer.unserializeCuries
              { lc with curies := setCurie lc.curies c.name c } rest
    | _ => .error .typeError

/-- `LinkContainer._unserialize_list(name, list_)`.  For a non-curie,
non-prefixed relation the source validates the first entry and then executes
`self._links.append(l)` — but `_links` is a dict, so the call raises
`AttributeError` on the first entry.  For a curie-prefixed relation the loop
body refers to the undefined variable `obj` (`l.unserialize(obj)`), raising
`NameError`. -/
def LinkContainer.unserializeList (lc : LinkContainer) (name : String) (list_ : JArr) :
    Except PyError LinkContainer :=
  match list_ with
  | .nil => .ok lc
  | .cons first _ =>
    if name == "curies" then lc.unserializeCuries list_
    else if !(name.data.contains ':') then
      match first with
      | .obj o =>
          if (o.lookup "name").isNone then .error .valueError
          else .error (.attributeError "append")
      | _ => .error .typeError
    else
      match pySplit ':' name with
      | [_, _] => .error (.nameError "obj")
      | _ => .error .valueError

/-- `LinkContainer.unserialize(name, obj)`: dispatch on dict / list shape. -/
def LinkContainer.unserialize (lc : LinkContainer) (name : String) (obj : JSON) :
    Except PyError LinkContainer :=
  match obj with
  | .obj o => lc.extractFromDict name o
  | .arr a => lc.unserializeList name a
  | _ => .error .typeError

/-- The module-level configuration of `habu`. -/
structure ModuleState where
  embedded_empty_list_fallback : Bool := true
deriving DecidableEq

/-- `habu.use_missing_embedded_fallback(bool_)`.  The function validates its
argument, but the assignment `_embedded_empty_list_fallback = bool_` creates a
FUNCTION-LOCAL binding — there is no `global` declaration (unlike
`set_request_func`) — so the module flag is returned unchanged. -/
def use_missing_embedded_fallback (st : ModuleState) (b : JSON) :
    Except PyError ModuleState :=
  match b with
  | .bool _ => .ok st
  | _ => .error .typeError

mutual
inductive Resource where
  | mk (links : LinkContainer) (embedded : EmbMap) (state : JObj)
deriving DecidableEq
inductive EmbMap where
  | nil
  | cons (name : String) (entries : RList) (rest : EmbMap)
deriving DecidableEq
inductive RList where
  | nil
  | cons (r : Resource) (rest : RList)
deriving DecidableEq
end

def EmbMap.lookup : EmbMap → String → Option RList
  | .nil, _ => none
  | .cons k v rest, key => if k == key then some v else rest.lookup key

/-- `self.embedded._resources[name] = ...`: dict update-or-append. -/
def EmbMap.set : EmbMap → String → RList → EmbMap
  | .nil, k, v => .cons k v .nil
  | .cons k0 v0 rest, k, v =>
    if k0 == k then .cons k0 v rest else .cons k0 v0 (rest.set k v)

def RList.toList : RList → List Resource
  | .nil => []
  | .cons r rest => r :: rest.toList

def Resource.links : Resource → LinkContainer
  | .mk lc _ _ => lc

def Resource.embedded : Resource → EmbMap
  | .mk _ emb _ => emb

def Resource.state : Resource → JObj
  | .mk _ _ st => st

/-- `ResourceContainer.__getattr__(key)` together with the module flag: a
missing relation returns the empty list when `_embedded_empty_list_fallback`
is set, and raises `AttributeError` otherwise. -/
def ResourceContainer.getattrE (st : ModuleState) (emb : EmbMap) (key : String) :
    Except PyError RList :=
  match emb.lookup key with
  | some rl => .ok rl
  | none =>
      if st.embedded_empty_list_fallback then .ok .nil
      else .error (.attributeError key)

/-- The `_links` loop of `Resource.unserialize`: `self.links.unserialize(name,
obj)` for every remaining entry. -/
def linksFold (lc : LinkContainer) : JObj → Except PyError LinkContainer
  | .nil => .ok lc
  | .cons k v rest => do
      let lc2 ← lc.unserialize k v
      linksFold lc2 rest

/- `Resource.__init__(dict_)` / `Resource.unserialize(dict_)`.  Construction
raises `TypeError` for a truthy non-dict, yields an empty Resource for any
falsy value, and otherwise unserializes the dict: `_links` goes to the
LinkContainer (`curies` first, then popped), `_embedded` maps each relation
name to a list of recursively constructed child Resources, and every other key
is stored in the state.  Iterating a non-list `_embedded` value follows Python
iteration: a string yields its one-character strings and a dict yields its
keys, each passed to `Resource(...)`, where any truthy non-dict raises
`TypeError`. -/
mutual
def Resource.construct : JSON → Except PyError Resource
  | .str s => if s == "" then .ok (.mk {} .nil .nil) else .error .typeError
  | .int n => if n == 0 then .ok (.mk {} .nil .nil) else .error .typeError
  | .bool b => if b then .error .typeError else .ok (.mk {} .nil .nil)
  | .null => .ok (.mk {} .nil .nil)
  | .arr .nil => .ok (.mk {} .nil .nil)
  | .arr (.cons _ _) => .error .typeError
  | .obj .nil => .ok (.mk {} .nil .nil)
  | .obj (.cons k v rest) => Resource.unserializeInto (.mk {} .nil .nil) (.cons k v rest)
termination_by structural j => j
def Resource.unserializeInto : Resource → JObj → Except PyError Resource
  | r, .nil => .ok r
  | .mk lc emb st, .cons k v rest =>
    if k == "_links" then
      match v with
      | .obj lo => do
          let lc2 ←
            match JObj.lookup lo "curies" with
            | some cv => LinkContainer.unserialize lc "curies" cv
            | none => .ok lc
          let lc3 ← linksFold lc2 (JObj.removeKey lo "curies")
          Resource.unserializeInto (.mk lc3 emb st) rest
      | _ => .error .typeError
    else if k == "_embedded" then
      match v with
      | .obj eo => do
          let emb2 ← Resource.embedFold emb eo
          Resource.unserializeInto (.mk lc emb2 st) rest
      | _ => .error .typeError
    else Resource.unserializeInto (.mk lc emb (st.set k v)) rest
termination_by structural _ o => o
def Resource.embedFold : EmbMap → JObj → Except PyError EmbMap
  | emb, .nil => .ok emb
  | emb, .cons name lv rest => do
      let rl ← Resource.resourcesOf lv
      Resource.embedFold (emb.set name rl) rest
termination_by structural _ o => o
def Resource.resourcesOf : JSON → Except PyError RList
  | .arr a => Resource.resourcesOfArr a
  | .str s =>
      -- iterating a string yields its characters; `Resource(one_char_string)`
      -- is a truthy non-dict, hence TypeError, while "" yields no iterations
      match s.data with
      | [] => .ok .nil
      | _ :: _ => .error .typeError
  | .obj o => Resource.resourcesOfKeys o
  | _ => .error .typeError
termination_by structural j => j
def Resource.resourcesOfKeys : JObj → Except PyError RList
  | .nil => .ok .nil
  | .cons k _ rest =>
      -- iterating a dict yields its keys; `Resource(key)` raises TypeError for
      -- a non-empty key string and yields an empty Resource for the empty key
      if k == "" then do
        let rs ← Resource.resourcesOfKeys rest
        .ok (.cons (.mk {} .nil .nil) rs)
      else .error .typeError
termination_by structural o => o
def Resource.resourcesOfArr : JArr → Except PyError RList
  | .nil => .ok .nil
  | .cons d rest => do
      let r ← Resource.construct d
      let rs ← Resource.resourcesOfArr rest
      .ok (.cons r rs)
termination_by structural a => a
end

/-- `DictionaryWrapper.update(dict_)`: `self[key] = value` for every entry. -/
def dwUpdate : JObj → JObj → JObj
  | st, .nil => st
  | st, .cons k v rest => dwUpdate (st.set k v) rest

/-- `Resource.update(dict_, partial)`.  The partial branch merges via
`DictionaryWrapper.update`.  The full-replace branch executes
`self._state = DictionaryWrapper(dict_)`, which goes through the overridden
`Resource.__setattr__` and therefore raises `AttributeError("_state")` unless
the state mapping itself contains a key `"_state"` (in which case it merely
sets that state entry). -/
def Resource.update (r : Resource) (d : JSON) (partialFlag : Bool) :
    Except PyError Resource :=
  match d with
  | .obj o =>
    match r with
    | .mk lc emb st =>
      if partialFlag then .ok (.mk lc emb (dwUpdate st o))
      else
        if (st.lookup "_state").isSome then .ok (.mk lc emb (st.set "_state" (.obj o)))
        else .error (.attributeError "_state")
  | _ => .error .typeError

/-- `Resource.__setattr__(key, value)`: raises `AttributeError(key)` unless
`key` is already present in the state mapping, and otherwise assigns into the
state (`self._state[key] = value`). -/
def Resource.setattr (r : Resource) (k : String) (v : JSON) : Except PyError Resource :=
  if ((r.state).lookup k).isSome then .ok (.mk r.links r.embedded ((r.state).set k v))
  else .error (.attributeError k)

/-- `Resource.__getattr__(key)`: state lookup, `AttributeError` when absent. -/
def Resource.getattr (r : Resource) (k : String) : Except PyError JSON :=
  match (r.state).lookup k with
  | some v => .ok v
  | none => .error (.attributeError k)

def JObj.ofList : List (String × JSON) → JObj
  | [] => .nil
  | (k, v) :: rest => .cons k v (JObj.ofList rest)

/-- The end-to-end example document of the specification. -/
def docC6 : JSON :=
  .obj (JObj.ofList [
    ("total", .int 1),
    ("_links", .obj (JObj.ofList [("self", .obj (JObj.ofList [("href", .str "/people")]))])),
    ("_embedded", .obj (JObj.ofList [("people", .arr (JArr.ofList [
        .obj (JObj.ofList [
          ("name", .str "Curtis"),
          ("age", .int 22),
          ("_links", .obj (JObj.ofList [("self", .obj (JObj.ofList [("href", .str "/people/clagraff")]))]))
        ])]))]))])

/-!
Theorems settling the claims.
-/

/-- Claim C1 (code bug): the claim (and the repository's own test
`TextLimit.test_valid_limit_and_value`) expects `text_limit(-4, s)` to return
the negative slice `s[:-4] = "fizz buzz foo "`.  The code path
`if limit and limit > 0` makes every non-positive limit a no-op, so the string
comes back unchanged — which differs from the expected slice. -/
theorem text_limit_negative_limit_is_noop :
    text_limit (-4) (.str "fizz buzz foo bar") = .ok (.str "fizz buzz foo bar") ∧
    ("fizz buzz foo bar" : String) ≠ "fizz buzz foo " :=
  ⟨rfl, by decide⟩

/-- Claim C2 (code bug): `fragment_expansion` should return `"#"` prepended to
the string expansion (here `"ab"`, so `"#ab"`), but the source computes
`"#%s" % ",".join(value)` on the already-joined STRING, interleaving commas
between its characters and producing `"#a,b"`. -/
theorem fragment_expansion_joins_characters :
    string_expansion "one" [.str "ab"] [] = .ok ("ab", [], []) ∧
    fragment_expansion "one" [.str "ab"] [] = .ok ("#a,b", [], []) ∧
    ("#a,b" : String) ≠ "#ab" :=
  ⟨rfl, rfl, by decide⟩

/-- Claim C3 (counterexample): with the empty template and a non-empty argument
set the call does NOT raise a `ValueError`; it raises an `IndexError` (from
`placeholder[-1]` on the empty placeholder string). -/
theorem value_extraction_empty_template_counterexample :
    value_extraction "" [JSON.str "x"] [] ≠ .error PyError.valueError ∧
    value_extraction "" [JSON.str "x"] [] = .error PyError.indexError := by
  have h : value_extraction "" [JSON.str "x"] [] = .error PyError.indexError := rfl
  refine ⟨?_, h⟩
  rw [h]
  intro hcontra
  injection hcontra with h2
  exact PyError.noConfusion h2

/-- Claim C3 (amended): for every non-empty set of positional or keyed
arguments, calling `value_extraction` with the empty template `""` raises an
IndexError — the loop body evaluates `placeholder[-1]` on the empty placeholder
produced by `"".split(",")` — rather than the claimed ValueError. -/
theorem value_extraction_empty_template_raises_index_error
    (args : List JSON) (kwargs : List (String × JSON))
    (h : args ≠ [] ∨ kwargs ≠ []) :
    value_extraction "" args kwargs = .error PyError.indexError := by
  rcases args with _ | ⟨a, args⟩
  · rcases kwargs with _ | ⟨p, kwargs⟩
    · rcases h with h | h <;> exact absurd rfl h
    · rfl
  · rfl

/-- Witness for the amended claim C3 at a concrete input. -/
theorem value_extraction_empty_template_raises_index_error_witness :
    value_extraction "" [JSON.str "x"] [] = .error PyError.indexError :=
  value_extraction_empty_template_raises_index_error [JSON.str "x"] []
    (Or.inl (by simp))

/-- Claim C4 (code bug): `key_value_extraction` is claimed (and tested, in
`KeyValueExtraction.test_missing_args_and_kwargs` /
`test_empty_template`) to raise the same ValueError as `value_extraction` when
no arguments are supplied, but the source returns `("", args, kwargs)` without
raising. -/
theorem key_value_extraction_no_args_returns_empty_string :
    key_value_extraction "one,two,three,four" [] [] = .ok (.str "", [], []) ∧
    value_extraction "one,two,three,four" [] [] = .error PyError.valueError :=
  ⟨rfl, rfl⟩

/-- Claim C5 (counterexample): with the positional arguments `("x", "x")` and
the single placeholder `"one"`, resolving the placeholder consumes the first
`"x"` but the returned remaining tuple is EMPTY — the second, unconsumed `"x"`
was dropped by `tuple(a for a in args if a != args[0])` — whereas the claim
requires it to remain available. -/
theorem value_extraction_duplicate_argument_dropped :
    value_extraction "one" [JSON.str "x", JSON.str "x"] [] ≠
      .ok (.arr (.cons (.str "x") .nil), [JSON.str "x"], []) ∧
    value_extraction "one" [JSON.str "x", JSON.str "x"] [] =
      .ok (.arr (.cons (.str "x") .nil), [], []) := by
  have h : value_extraction "one" [JSON.str "x", JSON.str "x"] [] =
      .ok (.arr (.cons (.str "x") .nil), [], []) := rfl
  refine ⟨?_, h⟩
  rw [h]
  intro hcontra
  injection hcontra with h2
  have h3 := congrArg (fun t => t.2.1) h2
  simp at h3

/-- Helper for claim C5: one pass of the extraction loop over a single simple
placeholder resolving from a non-`None` positional head. -/
theorem extractLoop_single_simple (kv : Bool) (a : JSON) (rest : List JSON)
    (kwargs : List (String × JSON)) (hnull : (a == JSON.null) = false)
    (items : List JSON) (hunpack : unpack a false = .ok items) :
    extractLoop kv 1 ["one"] 0 [] (a :: rest) kwargs =
      .ok (items.map (fmtVal kv "one"), (a :: rest).filter (fun x => !(pyEq x a)), kwargs) := by
  have he : lastCharIs '*' "one" = false := rfl
  simp [extractLoop, he, hnull, hunpack]
  rfl

/-- Claim C5 (amended): when `value_extraction` resolves a placeholder from a
non-empty positional list whose head is not `None`, it appends the head's
unpacked values and the returned remaining tuple is the original argument list
filtered by `a != args[0]` — every argument equal to the consumed head is
removed (duplicates are silently dropped), while the arguments that differ from
the head survive in their original order.  Stated for a representative single
simple placeholder and arbitrary arguments. -/
theorem value_extraction_filters_all_equal_arguments
    (a : JSON) (rest : List JSON) (kwargs : List (String × JSON))
    (hnull : (a == JSON.null) = false)
    (vs : List JSON) (hunpack : unpack a false = .ok vs) :
    value_extraction "one" (a :: rest) kwargs =
      .ok (.arr (JArr.ofList vs), (a :: rest).filter (fun x => !(pyEq x a)), kwargs) := by
  have hloop := extractLoop_single_simple false a rest kwargs hnull vs hunpack
  have hfun : fmtVal false "one" = fun v => v := by
    funext v
    rfl
  rw [hfun] at hloop
  have hmap : vs.map (fun v => v) = vs := by simp
  rw [hmap] at hloop
  have hs : pySplit ',' "one" = ["one"] := rfl
  simp [value_extraction, hs, hloop]
  rfl

/-- Witness for the amended claim C5: distinct arguments, the head consumed,
the other argument surviving. -/
theorem value_extraction_filters_all_equal_arguments_witness :
    value_extraction "one" [JSON.str "x", JSON.str "y"] [] =
      .ok (.arr (JArr.ofList [JSON.str "x"]), [JSON.str "y"], []) := by
  have h := value_extraction_filters_all_equal_arguments (JSON.str "x") [JSON.str "y"] []
    rfl [JSON.str "x"] rfl
  have h2 : ([JSON.str "x", JSON.str "y"].filter (fun x => !(pyEq x (JSON.str "x")))) =
      [JSON.str "y"] := rfl
  rw [h2] at h
  exact h

/-- Claim C6 (confirmed): unserializing the specification's end-to-end document
yields a Resource with state `total == 1`, a `self` link with href `/people`,
and exactly one embedded `people` entry whose state has `name == "Curtis"`,
`age == 22` and whose own `self` link has href `/people/clagraff`. -/
theorem resource_unserialize_end_to_end :
    (Resource.construct docC6).map (fun r =>
      ((r.state).lookup "total",
       ((r.links).links.lookup "self").map Link.href,
       ((r.embedded).lookup "people").map (fun rl => rl.toList.map (fun p =>
         ((p.state).lookup "name", (p.state).lookup "age",
          ((p.links).links.lookup "self").map Link.href))))) =
    .ok (some (.int 1), some (.str "/people"),
         some [(some (.str "Curtis"), some (.int 22), some (.str "/people/clagraff"))]) :=
  rfl

/-- Claim C7 (code bug): a non-curie relation with a list of link objects each
carrying a `name` is claimed to unserialize successfully, but the source
executes `self._links.append(l)` on the `_links` DICTIONARY, raising
`AttributeError` on the first entry; no Link is ever stored. -/
theorem link_container_list_append_attribute_error :
    LinkContainer.unserialize {} "orders"
      (.arr (.cons (.obj (.cons "name" (.str "a") (.cons "href" (.str "/a") .nil))) .nil)) =
    .error (.attributeError "append") :=
  rfl

/-- Claim C8 (code bug): partial update merges keys as claimed, but full
replace (`partial=False`) executes `self._state = DictionaryWrapper(dict_)`,
which goes through the overridden `Resource.__setattr__` and raises
`AttributeError("_state")` because `"_state"` is not a key of the state
mapping — the state is never replaced. -/
theorem resource_update_full_replace_raises :
    Resource.update (.mk {} .nil (.cons "a" (.int 1) .nil))
      (.obj (.cons "b" (.int 2) .nil)) true =
      .ok (.mk {} .nil (.cons "a" (.int 1) (.cons "b" (.int 2) .nil))) ∧
    Resource.update (.mk {} .nil (.cons "a" (.int 1) .nil))
      (.obj (.cons "b" (.int 2) .nil)) false =
      .error (.attributeError "_state") :=
  ⟨rfl, rfl⟩

/-- Claim C9 (code bug): reading a never-populated embedded relation returns
the empty list by default, as claimed; but `use_missing_embedded_fallback(False)`
does NOT switch the behaviour to raising `AttributeError`, because the
assignment in its body is function-local (no `global` declaration) — the module
flag stays `True` and the read still returns the empty list. -/
theorem use_missing_embedded_fallback_no_effect :
    use_missing_embedded_fallback {} (.bool false) = .ok {} ∧
    (use_missing_embedded_fallback {} (.bool false)).bind
      (fun st => ResourceContainer.getattrE st .nil "people") = .ok .nil :=
  ⟨rfl, rfl⟩

/-- Helper for claim C10: overwriting an existing key leaves the key list of a
state mapping unchanged. -/
theorem JObj.keys_set_of_mem : (st : JObj) → (k : String) → (v : JSON) →
    (st.lookup k).isSome = true → (st.set k v).keys = st.keys
  | .nil, k, v, h => by simp [JObj.lookup] at h
  | .cons k0 v0 rest, k, v, h => by
      unfold JObj.set
      by_cases hk : (k0 == k) = true
      · rw [if_pos hk]
        rfl
      · rw [if_neg hk]
        unfold JObj.keys
        unfold JObj.lookup at h
        rw [if_neg hk] at h
        rw [JObj.keys_set_of_mem rest k v h]
termination_by structural st _ _ _ => st

/-- Claim C10 (confirmed): `Resource.__setattr__` raises `AttributeError(k)`
whenever `k` is not an existing state key (links, embedded and state are left
untouched since the raise precedes any mutation), and a successful assignment
changes only the value of an existing state key: links and embedded are
unchanged and the set of state keys is preserved, so no key is ever created. -/
theorem resource_setattr_only_existing_keys
    (lc : LinkContainer) (emb : EmbMap) (st : JObj) (k : String) (v : JSON) :
    ((st.lookup k) = none →
      Resource.setattr (.mk lc emb st) k v = .error (.attributeError k)) ∧
    (∀ r2, Resource.setattr (.mk lc emb st) k v = .ok r2 →
      r2.links = lc ∧ r2.embedded = emb ∧ (r2.state).keys = st.keys) := by
  constructor
  · intro h
    unfold Resource.setattr
    simp [Resource.state, h]
  · intro r2 h2
    unfold Resource.setattr at h2
    simp only [Resource.state, Resource.links, Resource.embedded] at h2
    by_cases hs : (st.lookup k).isSome = true
    · rw [if_pos hs] at h2
      injection h2 with h3
      subst h3
      exact ⟨rfl, rfl, JObj.keys_set_of_mem st k v hs⟩
    · rw [if_neg hs] at h2
      exact absurd h2 (by simp)

/-- Witness for claim C10: assigning to a key absent from the state raises
`AttributeError` for that key. -/
theorem resource_setattr_only_existing_keys_witness :
    Resource.setattr (.mk {} .nil (.cons "a" (.int 1) .nil)) "zzz" (.int 5) =
      .error (.attributeError "zzz") :=
  (resource_setattr_only_existing_keys {} .nil (.cons "a" (.int 1) .nil) "zzz" (.int 5)).1 rfl
